import Mathlib

/-!
Verification of the EdgeQL keyword-classification subsystem
(`edb/edgeql-parser/src/keywords.rs`).

The three keyword tables are transcribed verbatim from the Rust source,
in source order.  The classifier itself is not part of the source tree
(only the taxonomy data is); it is modelled from the specification.
-/

namespace EdgeQLKeywords

/-- Transcription of `UNRESERVED_KEYWORDS` from `keywords.rs`, lines 1–93, in source order. -/
def UNRESERVED_KEYWORDS : List String := [
  "abstract", "after", "alias", "allow", "all", "annotation", "applied",
  "as", "asc", "assignment", "before", "by", "cardinality", "cast",
  "config", "conflict", "constraint", "current", "database", "ddl",
  "deferrable", "deferred", "delegated", "desc", "emit", "explicit",
  "expression", "extension", "final", "first", "from", "function",
  "implicit", "index", "infix", "inheritable", "into", "isolation",
  "json", "last", "link", "migration", "multi", "named", "object",
  "of", "oids", "on", "only", "onto", "operator", "optionality",
  "overloaded", "owned", "package", "postfix", "prefix", "property",
  "proposed", "pseudo", "read", "reject", "rename", "required",
  "repeatable", "restrict", "role", "roles", "savepoint", "scalar",
  "schema", "sdl", "serializable", "session", "single", "source",
  "superuser", "system", "target", "ternary", "text", "then", "to",
  "transaction", "type", "unless", "using", "verbose", "version",
  "view", "write"]

/-- Transcription of `FUTURE_RESERVED_KEYWORDS` from `keywords.rs`, lines 96–131, in source order. -/
def FUTURE_RESERVED_KEYWORDS : List String := [
  "analyze", "anyarray", "begin", "case", "check", "deallocate",
  "discard", "do", "end", "execute", "explain", "fetch", "get",
  "global", "grant", "import", "listen", "load", "lock", "match",
  "move", "notify", "prepare", "partition", "policy", "raise",
  "refresh", "reindex", "revoke", "over", "when", "window"]

/-- Transcription of `CURRENT_RESERVED_KEYWORDS` from `keywords.rs`, lines 133–192, in source
order.  Note that the source lists `"__std__"` twice (lines 138 and 141). -/
def CURRENT_RESERVED_KEYWORDS : List String := [
  "__source__", "__subject__", "__type__", "__std__", "__edgedbsys__",
  "__edgedbtpl__", "__std__", "abort", "alter", "and", "anytuple",
  "anytype", "commit", "configure", "create", "declare", "delete",
  "describe", "detached", "distinct", "drop", "else", "empty",
  "exists", "extending", "false", "filter", "for", "group", "if",
  "ilike", "in", "insert", "introspect", "is", "like", "limit",
  "module", "not", "offset", "optional", "or", "order", "populate",
  "release", "reset", "rollback", "select", "set", "start", "true",
  "typeof", "update", "union", "variadic", "with"]

/-- The concatenation of the three tier tables, in source order. -/
def allKeywords : List String :=
  UNRESERVED_KEYWORDS ++ FUTURE_RESERVED_KEYWORDS ++ CURRENT_RESERVED_KEYWORDS

/-- Modelled from the spec: the closed enumeration of classification
outcomes, Unreserved, FutureReserved, CurrentReserved and NotAKeyword
(spec §6).  The Rust source under `src/` holds only the taxonomy data;
the category type is absent from it. -/
inductive Category where
  | Unreserved
  | FutureReserved
  | CurrentReserved
  | NotAKeyword
deriving DecidableEq, Repr

/-- ASCII-only lowercase fold of a single character: the letters
`A`–`Z` map to `a`–`z`, every other character is unchanged. -/
def asciiToLower (c : Char) : Char :=
  if 'A' ≤ c ∧ c ≤ 'Z' then Char.ofNat (c.toNat + 32) else c

/-- ASCII-only lowercase fold of a string, character by character. -/
def toLowerAscii (s : String) : String := ⟨s.data.map asciiToLower⟩

/-- Modelled from the spec: membership lookup over an already case-folded
word — "test membership in `CurrentReserved`, then `FutureReserved`, then
`Unreserved`" (spec §4.2); the lookup function is absent from `src/`. -/
def classifyFolded (w : String) : Category :=
  if w ∈ CURRENT_RESERVED_KEYWORDS then Category.CurrentReserved
  else if w ∈ FUTURE_RESERVED_KEYWORDS then Category.FutureReserved
  else if w ∈ UNRESERVED_KEYWORDS then Category.Unreserved
  else Category.NotAKeyword

/-- Modelled from the spec: `classify(word: string) -> Category`
(spec §6), "case-fold the input once" with an ASCII-only lowercase fold
(spec §4.2) and then look the folded word up in the three tiers; the
classifier is absent from `src/`. -/
def classify (s : String) : Category :=
  classifyFolded (toLowerAscii s)

/-- Modelled from the spec: `is_keyword(word) -> bool`, "convenience
predicate equivalent to `classify(word) != NotAKeyword`" (spec §6). -/
def is_keyword (s : String) : Bool :=
  classify s != Category.NotAKeyword

/-- Does the string begin with two underscore characters? -/
def startsWithDoubleUnderscore (s : String) : Bool :=
  match s.data with
  | '_' :: '_' :: _ => true
  | _ => false

/-- The six double-underscore pseudo-identifier entries of
`CURRENT_RESERVED_KEYWORDS`, in source order (duplicate omitted). -/
def DUNDER_KEYWORDS : List String :=
  ["__source__", "__subject__", "__type__", "__std__", "__edgedbsys__",
   "__edgedbtpl__"]

set_option maxRecDepth 10000

/-- Every entry of every tier is fixed by the ASCII lowercase fold. -/
lemma lower_fix_all : ∀ s ∈ allKeywords, toLowerAscii s = s := by decide

/-- No unreserved keyword occurs in either reserved tier. -/
lemma disj_U : ∀ w ∈ UNRESERVED_KEYWORDS,
    w ∉ FUTURE_RESERVED_KEYWORDS ∧ w ∉ CURRENT_RESERVED_KEYWORDS := by decide

/-- No future-reserved keyword occurs in the current-reserved tier. -/
lemma disj_F : ∀ w ∈ FUTURE_RESERVED_KEYWORDS,
    w ∉ CURRENT_RESERVED_KEYWORDS := by decide

/-- Claim C1: every word belongs to at most one of the three tier
collections, and the number of distinct words in the union of the three
tiers equals the sum of the tiers' distinct counts (178 = 91 + 32 + 55). -/
theorem tiers_disjoint :
    (∀ w : String,
      (w ∈ UNRESERVED_KEYWORDS →
        w ∉ FUTURE_RESERVED_KEYWORDS ∧ w ∉ CURRENT_RESERVED_KEYWORDS) ∧
      (w ∈ FUTURE_RESERVED_KEYWORDS → w ∉ CURRENT_RESERVED_KEYWORDS)) ∧
    allKeywords.dedup.length =
      UNRESERVED_KEYWORDS.dedup.length + FUTURE_RESERVED_KEYWORDS.dedup.length
        + CURRENT_RESERVED_KEYWORDS.dedup.length := by
  refine ⟨fun w => ⟨fun h => disj_U w h, fun h => disj_F w h⟩, by decide⟩

/-- Witness for C1 at the concrete word "cardinality". -/
theorem tiers_disjoint_witness :
    "cardinality" ∈ UNRESERVED_KEYWORDS ∧
    ("cardinality" ∉ FUTURE_RESERVED_KEYWORDS ∧
     "cardinality" ∉ CURRENT_RESERVED_KEYWORDS) :=
  ⟨by decide, (tiers_disjoint.1 "cardinality").1 (by decide)⟩

/-- Claim C2 fails on the code: `CURRENT_RESERVED_KEYWORDS` lists
`"__std__"` at both position 3 and position 6, so the concatenation of the
three sequences has 179 entries but only 178 distinct words — the word
`"__std__"` occurs at two positions in the combined list of entries. -/
theorem std_listed_twice :
    CURRENT_RESERVED_KEYWORDS.get? 3 = some "__std__" ∧
    CURRENT_RESERVED_KEYWORDS.get? 6 = some "__std__" ∧
    allKeywords.count "__std__" = 2 ∧
    allKeywords.length = 179 ∧
    allKeywords.dedup.length = 178 := by
  refine ⟨by decide, by decide, by decide, by decide, by decide⟩

/-- Claim C3: the sample words classify into their stated tiers, each
being an entry of exactly that tier's collection and of no other. -/
theorem tier_membership_samples :
    classify "select" = Category.CurrentReserved ∧
    classify "cardinality" = Category.Unreserved ∧
    classify "window" = Category.FutureReserved ∧
    classify "__type__" = Category.CurrentReserved ∧
    "select" ∈ CURRENT_RESERVED_KEYWORDS ∧
    UNRESERVED_KEYWORDS.contains "select" = false ∧
    FUTURE_RESERVED_KEYWORDS.contains "select" = false ∧
    "cardinality" ∈ UNRESERVED_KEYWORDS ∧
    FUTURE_RESERVED_KEYWORDS.contains "cardinality" = false ∧
    CURRENT_RESERVED_KEYWORDS.contains "cardinality" = false ∧
    "window" ∈ FUTURE_RESERVED_KEYWORDS ∧
    UNRESERVED_KEYWORDS.contains "window" = false ∧
    CURRENT_RESERVED_KEYWORDS.contains "window" = false ∧
    "__type__" ∈ CURRENT_RESERVED_KEYWORDS ∧
    UNRESERVED_KEYWORDS.contains "__type__" = false ∧
    FUTURE_RESERVED_KEYWORDS.contains "__type__" = false := by
  decide

/-- Claim C4: every entry of each of the three collections is already in
lowercase — the ASCII lowercase fold of any entry is the entry itself. -/
theorem entries_lowercase (s : String)
    (h : s ∈ UNRESERVED_KEYWORDS ∨ s ∈ FUTURE_RESERVED_KEYWORDS ∨
         s ∈ CURRENT_RESERVED_KEYWORDS) :
    toLowerAscii s = s := by
  apply lower_fix_all
  simp only [allKeywords, List.mem_append]
  tauto

/-- Witness for C4 at the concrete entry "select". -/
theorem entries_lowercase_witness :
    ("select" ∈ UNRESERVED_KEYWORDS ∨ "select" ∈ FUTURE_RESERVED_KEYWORDS ∨
     "select" ∈ CURRENT_RESERVED_KEYWORDS) ∧
    toLowerAscii "select" = "select" :=
  ⟨Or.inr (Or.inr (by decide)),
   entries_lowercase "select" (Or.inr (Or.inr (by decide)))⟩

/-- Claim C5: `classify` is total — on every input string it returns one
of the four categories (being a Lean function, it always terminates). -/
theorem classify_total (s : String) :
    classify s = Category.Unreserved ∨ classify s = Category.FutureReserved ∨
    classify s = Category.CurrentReserved ∨
    classify s = Category.NotAKeyword := by
  cases h : classify s
  · exact Or.inl rfl
  · exact Or.inr (Or.inl rfl)
  · exact Or.inr (Or.inr (Or.inl rfl))
  · exact Or.inr (Or.inr (Or.inr rfl))

/-- Witness for C5 at the concrete string "foo". -/
theorem classify_total_witness :
    classify "foo" = Category.Unreserved ∨
    classify "foo" = Category.FutureReserved ∨
    classify "foo" = Category.CurrentReserved ∨
    classify "foo" = Category.NotAKeyword :=
  classify_total "foo"

/-- Claim C6: classification is case-insensitive — for every keyword `w`
of any tier and every casing variant of it (a string whose ASCII lowercase
fold is `w`), both classify alike; in particular "Select" is classified
CurrentReserved. -/
theorem classify_case_insensitive :
    (∀ w w₁ : String, w ∈ allKeywords → toLowerAscii w₁ = w →
      classify w₁ = classify w) ∧
    classify "Select" = Category.CurrentReserved := by
  constructor
  · intro w w₁ hw h
    show classifyFolded (toLowerAscii w₁) = classifyFolded (toLowerAscii w)
    rw [h, lower_fix_all w hw]
  · decide

/-- Witness for C6 at the keyword "select" and its variant "SELECT". -/
theorem classify_case_insensitive_witness :
    ("select" ∈ allKeywords ∧ toLowerAscii "SELECT" = "select") ∧
    classify "SELECT" = classify "select" :=
  ⟨⟨by decide, by decide⟩,
   classify_case_insensitive.1 "select" "SELECT" (by decide) (by decide)⟩

/-- Claim C7: the taxonomy entries beginning with a double underscore are
exactly the six pseudo-identifiers, and each of them is an entry of
`CURRENT_RESERVED_KEYWORDS` and of neither other tier. -/
theorem dunder_current_reserved :
    (∀ s ∈ allKeywords, startsWithDoubleUnderscore s = true →
      s ∈ DUNDER_KEYWORDS) ∧
    (∀ s ∈ DUNDER_KEYWORDS,
      s ∈ CURRENT_RESERVED_KEYWORDS ∧ s ∉ UNRESERVED_KEYWORDS ∧
        s ∉ FUTURE_RESERVED_KEYWORDS) :=
  ⟨by decide, by decide⟩

/-- Witness for C7 at the concrete pseudo-identifier entry. -/
theorem dunder_current_reserved_witness :
    "__type__" ∈ DUNDER_KEYWORDS ∧
    ("__type__" ∈ CURRENT_RESERVED_KEYWORDS ∧
     "__type__" ∉ UNRESERVED_KEYWORDS ∧
     "__type__" ∉ FUTURE_RESERVED_KEYWORDS) :=
  ⟨by decide, dunder_current_reserved.2 "__type__" (by decide)⟩

/-- Claim C8: the baseline non-keywords occur in none of the three
collections and classify as NotAKeyword. -/
theorem non_keyword_baseline :
    classify "foo" = Category.NotAKeyword ∧
    classify "my_table" = Category.NotAKeyword ∧
    classify "x1" = Category.NotAKeyword ∧
    classify "totally_not_a_keyword" = Category.NotAKeyword ∧
    allKeywords.contains "foo" = false ∧
    allKeywords.contains "my_table" = false ∧
    allKeywords.contains "x1" = false ∧
    allKeywords.contains "totally_not_a_keyword" = false := by
  decide

/-- Claim C9: the tier tables have 91, 32 and 56 entries respectively, of
which the current-reserved table has 55 distinct, "__std__" occurring
twice. -/
theorem tier_sizes :
    UNRESERVED_KEYWORDS.length = 91 ∧
    FUTURE_RESERVED_KEYWORDS.length = 32 ∧
    CURRENT_RESERVED_KEYWORDS.length = 56 ∧
    UNRESERVED_KEYWORDS.dedup.length = 91 ∧
    FUTURE_RESERVED_KEYWORDS.dedup.length = 32 ∧
    CURRENT_RESERVED_KEYWORDS.dedup.length = 55 ∧
    CURRENT_RESERVED_KEYWORDS.count "__std__" = 2 := by
  refine ⟨by decide, by decide, by decide, by decide, by decide, by decide,
    by decide⟩

/-- Every entry of every tier is non-empty and drawn from ASCII lowercase
letters and the underscore. -/
lemma charset_all : ∀ s ∈ allKeywords,
    s.data ≠ [] ∧ ∀ c ∈ s.data, ('a' ≤ c ∧ c ≤ 'z') ∨ c = '_' := by decide

/-- Claim C10: every entry of each collection is a non-empty string whose
characters are only the ASCII lowercase letters and the underscore. -/
theorem entries_ascii_charset (s : String) (h : s ∈ allKeywords) :
    s.data ≠ [] ∧ ∀ c ∈ s.data, ('a' ≤ c ∧ c ≤ 'z') ∨ c = '_' :=
  charset_all s h

/-- Witness for C10 at the entry "select" and its character s. -/
theorem entries_ascii_charset_witness :
    "select" ∈ allKeywords ∧ (('a' ≤ 's' ∧ 's' ≤ 'z') ∨ 's' = '_') :=
  ⟨by decide, (entries_ascii_charset "select" (by decide)).2 's' (by decide)⟩

end EdgeQLKeywords
